import Mathlib

/-!
Verification development for the eventa event-ingestion service.

The definitions below are shallow embeddings of the Python sources:
  * app/ext/nats_subscriber.py  (consumer loop, per-message ack/nak/term policy)
  * app/ext/nats_publisher.py   (publish path)
  * app/events/handlers.py      (persistence handler and subscription registry)
  * app/services/event_service.py (create / query operations)
  * app/routers/event.py        (GET /events endpoint)
  * app/main.py                 (lifespan startup over the subscription registry)
  * run_nats_worker.py          (legacy FastStream ingestion path)
  * app/events/init module      (package re-exports)

Machine-level details that the claims do not touch (connection URLs, logging
configuration, pagination plumbing) are abstracted; every branch that an
embedded function takes mirrors a branch of the corresponding Python code.
-/

/-- A JSON value, the shape of decoded message payloads (msgspec produces
plain dicts/lists/strings/numbers).  Timestamps are abstracted to numbers. -/
inductive Json where
  | str : String → Json
  | num : Int → Json
  | bool : Bool → Json
  | null : Json
  | arr : List Json → Json
  | obj : List (String × Json) → Json

/-- A raw message body as delivered by the broker: either bytes that are not
valid structured data at all, or a JSON document. -/
inductive Payload where
  | invalid : Payload
  | json : Json → Payload

/-- Modelled from the spec: app/schemas/event.py (the pydantic Event schema)
is not under src/.  The spec's data model (section 3) lists the required
fields source, spec_version, event_type, data_content_type, subject, time and
the optional tags, labels, user_id.  Times are abstracted to integers. -/
structure Envelope where
  source : String
  spec_version : String
  event_type : String
  data_content_type : String
  subject : String
  time : Int
  tags : Option (List String)
  labels : Option (List (String × String))
  user_id : Option String
  deriving Repr, DecidableEq

/-- First binding of a key in a JSON object (Python dict lookup). -/
def jsonLookup (fields : List (String × Json)) (k : String) : Option Json :=
  match fields with
  | [] => none
  | (k', v) :: rest => if k' = k then some v else jsonLookup rest k

/-- Read a JSON value as a string. -/
def asStr : Json → Option String
  | .str s => some s
  | _ => none

/-- Read a JSON value as an integer (abstracted timestamp). -/
def asInt : Json → Option Int
  | .num n => some n
  | _ => none

/-- Read a JSON value as a list of strings. -/
def asStrList : Json → Option (List String)
  | .arr xs => xs.mapM asStr
  | _ => none

/-- Read a JSON value as a string-to-string mapping. -/
def asStrMap : Json → Option (List (String × String))
  | .obj kvs => kvs.mapM (fun kv => (asStr kv.2).map (fun v => (kv.1, v)))
  | _ => none

/-- An optional field: absent is fine, present-but-ill-shaped is a
validation failure. -/
def optField (fields : List (String × Json)) (k : String)
    (read : Json → Option α) : Option (Option α) :=
  match jsonLookup fields k with
  | none => some none
  | some j => (read j).map some

/-- Modelled from the spec: the Envelope Codec's decode direction
(app/schemas/event.py is not under src/).  Per spec section 4.1, decoding
fails exactly when the byte stream is not valid structured data or a
required field is missing (or ill-typed); unexpected extra fields are
ignored.  This stands for msgspec decoding followed by
Event.model_validate in nats_subscriber._process_message. -/
def decodeEnvelope : Payload → Option Envelope
  | .invalid => none
  | .json (.obj fields) => do
      let source ← (jsonLookup fields "source").bind asStr
      let spec_version ← (jsonLookup fields "spec_version").bind asStr
      let event_type ← (jsonLookup fields "event_type").bind asStr
      let data_content_type ← (jsonLookup fields "data_content_type").bind asStr
      let subject ← (jsonLookup fields "subject").bind asStr
      let time ← (jsonLookup fields "time").bind asInt
      let tags ← optField fields "tags" asStrList
      let labels ← optField fields "labels" asStrMap
      let user_id ← optField fields "user_id" asStr
      pure { source, spec_version, event_type, data_content_type, subject,
             time, tags, labels, user_id }
  | .json _ => none

/-- Outcome of invoking the registered handler on a decoded envelope:
it either returns normally or raises. -/
inductive HandlerOutcome where
  | ok : HandlerOutcome
  | err : HandlerOutcome
  deriving Repr, DecidableEq

/-- The broker calls a message can receive in
nats_subscriber._process_message. -/
inductive BrokerCall where
  | ack : BrokerCall
  | nak : BrokerCall
  | term : BrokerCall
  deriving Repr, DecidableEq

/-- Whether each broker round-trip (msg.ack / msg.nak / msg.term) itself
completes without raising.  The Python code wraps each of these calls in
its own try/except. -/
structure BrokerOutcomes where
  ackOk : Bool
  nakOk : Bool
  termOk : Bool
  deriving Repr, DecidableEq

/-- Result of one execution of _process_message: the broker calls issued
(in order, recording every call the code makes whether or not the
round-trip succeeds), the envelopes the handler was invoked on, and
whether the function raises to its caller. -/
structure ProcessResult where
  calls : List BrokerCall
  handlerInvocations : List Envelope
  raises : Bool
  deriving Repr, DecidableEq

/-- Embedding of NatsSubscriber._process_message
(app/ext/nats_subscriber.py lines 134-160).
  * decode failure: log, try msg.term() (term failure swallowed), return;
  * handler success + auto_ack: msg.ack(); if the ack call raises, control
    falls to the handler-error except branch, which issues msg.nak()
    (nak failure swallowed);
  * handler raises: log, try msg.nak() (nak failure swallowed).
Every path catches Exception, so the function never raises. -/
def processMessage (p : Payload) (handler : Envelope → HandlerOutcome)
    (autoAck : Bool) (br : BrokerOutcomes) : ProcessResult :=
  match decodeEnvelope p with
  | none =>
      { calls := [.term], handlerInvocations := [], raises := false }
  | some env =>
      match handler env with
      | .err =>
          { calls := [.nak], handlerInvocations := [env], raises := false }
      | .ok =>
          if autoAck then
            if br.ackOk then
              { calls := [.ack], handlerInvocations := [env], raises := false }
            else
              { calls := [.ack, .nak], handlerInvocations := [env],
                raises := false }
          else
            { calls := [], handlerInvocations := [env], raises := false }

/-- Embedding of NatsSubscriber._message_loop
(app/ext/nats_subscriber.py lines 114-132) over a finite prefix of the
delivery stream.  A none entry models subscription.messages.get()
returning None (the loop just continues); an unexpected exception escaping
_process_message would end the loop (the outer except logs and returns). -/
def messageLoop (handler : Envelope → HandlerOutcome) (autoAck : Bool)
    (br : BrokerOutcomes) : List (Option Payload) → List ProcessResult
  | [] => []
  | none :: rest => messageLoop handler autoAck br rest
  | some p :: rest =>
      let r := processMessage p handler autoAck br
      if r.raises then [r]
      else r :: messageLoop handler autoAck br rest

/-- A JetStream publish acknowledgment (stream name and sequence), as the
broker returns it to NatsPublisher. -/
structure PubAck where
  stream : String
  seq : Nat
  deriving Repr, DecidableEq

/-- What the broker does with one publish round-trip in
NatsPublisher._publish_async: return an acknowledgment, return a falsy
acknowledgment, or raise one of the transport errors. -/
inductive BrokerPublishOutcome where
  | ok : PubAck → BrokerPublishOutcome
  | noAck : BrokerPublishOutcome
  | fail : BrokerPublishOutcome
  deriving Repr, DecidableEq

/-- Errors _publish_async can raise to its caller. -/
inductive PublishErr where
  | invalidSubject : PublishErr
  | noPubAck : PublishErr
  | transport : PublishErr
  deriving Repr, DecidableEq

/-- Log lines emitted by _publish_async. -/
inductive PubLog where
  | publishedDebug : String → String → Nat → PubLog
  | publishFailed : String → PubLog
  deriving Repr, DecidableEq

/-- Embedding of NatsPublisher._publish_async
(app/ext/nats_publisher.py lines 41-77).  The function is annotated
-> None and has no return statement: on success it logs the broker
acknowledgment's stream and sequence and returns None (here Unit).  An
empty subject raises ValueError before any network work; a falsy PubAck
raises RuntimeError (not in the except tuple, so unlisted and unlogged);
transport errors are logged then re-raised. -/
def publishAsync (subject : String) (env : Envelope)
    (broker : BrokerPublishOutcome) : Except PublishErr Unit × List PubLog :=
  if subject = "" then (.error .invalidSubject, [])
  else
    match broker with
    | .ok ack => (.ok (), [.publishedDebug subject ack.stream ack.seq])
    | .noAck => (.error .noPubAck, [])
    | .fail => (.error .transport, [.publishFailed subject])

/-- A persisted event row, mirroring the columns of app/models/event.py
(source, spec_version, event_type, event_data, data_content_type, subject,
time, tags, labels).  The id/timestamp/soft-delete bookkeeping columns are
not touched by any claim and are omitted. -/
structure EventRow where
  source : String
  spec_version : String
  event_type : String
  event_data : Json
  data_content_type : String
  subject : String
  time : Int
  tags : Option (List String)
  labels : List (String × String)

/-- Modelled from the spec: the EventCreate create-command
(app/schemas/event.py is not under src/).  It carries the values its
callers pass field-by-field; per spec section 3, labels defaults to the
empty mapping. -/
structure EventCreate where
  source : String
  spec_version : String
  event_type : String
  event_data : Json
  data_content_type : String
  subject : String
  time : Int
  tags : Option (List String)
  labels : Option (List (String × String))

/-- The row EventService.create_event builds from a create-command
(Event(**event.model_dump()), app/services/event_service.py line 67);
the column default turns an absent labels mapping into the empty dict. -/
def rowOfCreate (ec : EventCreate) : EventRow :=
  { source := ec.source
    spec_version := ec.spec_version
    event_type := ec.event_type
    event_data := ec.event_data
    data_content_type := ec.data_content_type
    subject := ec.subject
    time := ec.time
    tags := ec.tags
    labels := ec.labels.getD [] }

/-- A scoped SQLAlchemy session: rows added but not yet committed, and
rows durably committed. -/
structure DBSession where
  pending : List EventRow
  committed : List EventRow

/-- A fresh session over an empty store. -/
def dbEmpty : DBSession := { pending := [], committed := [] }

/-- session.add -/
def dbAdd (r : EventRow) (s : DBSession) : DBSession :=
  { s with pending := s.pending ++ [r] }

/-- session.commit -/
def dbCommit (s : DBSession) : DBSession :=
  { pending := [], committed := s.committed ++ s.pending }

/-- session.rollback -/
def dbRollback (s : DBSession) : DBSession :=
  { s with pending := [] }

/-- Whether the store accepts or rejects the commit of the current
transaction (the external failure mode of the persistence step). -/
inductive StoreOutcome where
  | commitOk : StoreOutcome
  | commitFail : StoreOutcome
  deriving Repr, DecidableEq

/-- Embedding of EventService.create_event
(app/services/event_service.py lines 57-71): build the row, session.add,
session.commit, refresh, return the row.  If the commit is rejected the
store error propagates and the added row stays pending in the session. -/
def createEvent (ec : EventCreate) (out : StoreOutcome) (s : DBSession) :
    Except Unit EventRow × DBSession :=
  let s1 := dbAdd (rowOfCreate ec) s
  match out with
  | .commitOk => (.ok (rowOfCreate ec), dbCommit s1)
  | .commitFail => (.error (), s1)

/-- The field extraction handle_event performs
(app/events/handlers.py lines 18-28): the create-command is the decoded
envelope's fields, with the entire event stored as event_data. -/
def eventCreateOfEnvelope (env : Envelope) (encoded : Json) : EventCreate :=
  { source := env.source
    spec_version := env.spec_version
    event_type := env.event_type
    event_data := encoded
    data_content_type := env.data_content_type
    subject := env.subject
    time := env.time
    tags := env.tags
    labels := env.labels }

/-- The Envelope Codec's encode direction, used where handle_event stores
the whole event as event_data. -/
def encodeEnvelope (env : Envelope) : Json :=
  .obj ([("source", .str env.source),
         ("spec_version", .str env.spec_version),
         ("event_type", .str env.event_type),
         ("data_content_type", .str env.data_content_type),
         ("subject", .str env.subject),
         ("time", .num env.time)]
    ++ (match env.tags with
        | none => []
        | some ts => [("tags", .arr (ts.map Json.str))])
    ++ (match env.labels with
        | none => []
        | some ls => [("labels", .obj (ls.map (fun kv => (kv.1, .str kv.2))))])
    ++ (match env.user_id with
        | none => []
        | some u => [("user_id", .str u)]))

/-- Embedding of handle_event (app/events/handlers.py lines 13-39): open a
session, build the create-command from the envelope, create the event; on
any exception log it, roll the session back and re-raise; finally close
the session. -/
def handleEvent (env : Envelope) (out : StoreOutcome) (s : DBSession) :
    Except Unit Unit × DBSession :=
  let ec := eventCreateOfEnvelope env (encodeEnvelope env)
  match createEvent ec out s with
  | (.ok _, s1) => (.ok (), s1)
  | (.error e, s1) => (.error e, dbRollback s1)

/-- msg.get(k, default) on the decoded message dict. -/
def dictGetD (msg : List (String × Json)) (k : String) (d : Json) : Json :=
  (jsonLookup msg k).getD d

/-- Modelled from the spec: validation of the worker's create-command
(app/schemas/event.py is not under src/).  The legacy handler in
run_nats_worker.py lines 113-134 reads each field with msg.get and a
silent default: spec_version defaults to "1.0", data_content_type to
"application/json", and source, event_type and subject to the empty
string.  A value of the wrong shape, or a missing event_data, is a
validation error (the raw payload is required by spec section 3 and the
event_data column is NOT NULL); time defaults to ingestion time (now)
when absent. -/
def buildWorkerCreate (msg : List (String × Json)) (now : Int) :
    Option EventCreate := do
  let source ← asStr (dictGetD msg "source" (.str ""))
  let spec_version ← asStr (dictGetD msg "spec_version" (.str "1.0"))
  let event_type ← asStr (dictGetD msg "event_type" (.str ""))
  let event_data ← jsonLookup msg "event_data"
  let data_content_type ←
    asStr (dictGetD msg "data_content_type" (.str "application/json"))
  let subject ← asStr (dictGetD msg "subject" (.str ""))
  let time ←
    match jsonLookup msg "time" with
    | none => some now
    | some j => asInt j
  let tags ← optField msg "tags" asStrList
  let labels ← optField msg "labels" asStrMap
  pure { source, spec_version, event_type, event_data, data_content_type,
         subject, time, tags, labels }

/-- Embedding of the FastStream handler in run_nats_worker.py lines
108-149: build the create-command from the raw dict with silent defaults,
create the event (commit), then run the user enrichment; any exception is
logged, the session rolled back and the error re-raised.  fetchOk models
whether the post-commit fetch_user call succeeds; its failure cannot undo
the already committed row. -/
def workerHandler (msg : List (String × Json)) (now : Int)
    (out : StoreOutcome) (fetchOk : Bool) (s : DBSession) :
    Except Unit Unit × DBSession :=
  match buildWorkerCreate msg now with
  | none => (.error (), dbRollback s)
  | some ec =>
      match createEvent ec out s with
      | (.error e, s1) => (.error e, dbRollback s1)
      | (.ok _, s1) =>
          if fetchOk then (.ok (), s1) else (.error (), dbRollback s1)

/-- Exact-match element containment: PostgreSQL's array contains operator,
Event.tags.contains(tags) in event_service._build_tags_labels_query. -/
def tagsContain (rowTags : Option (List String)) (tags : List String) : Bool :=
  match rowTags with
  | none => false
  | some ts => tags.all (fun t => ts.contains t)

/-- JSONB containment for the labels filter:
Event.labels.contains(labels). -/
def labelsContain (rowLabels : List (String × String))
    (labels : List (String × String)) : Bool :=
  labels.all (fun kv => rowLabels.contains kv)

/-- Embedding of EventService._build_tags_labels_query
(app/services/event_service.py lines 141-152) run against the committed
rows: raise ValueError when tags is empty, otherwise filter by array
containment of tags and, when a labels mapping is given, JSONB containment
of labels. -/
def buildTagsLabelsQuery (tags : List String)
    (labels : Option (List (String × String))) (committed : List EventRow) :
    Except Unit (List EventRow) :=
  if tags.isEmpty then .error ()
  else
    let base := committed.filter (fun r => tagsContain r.tags tags)
    match labels with
    | none => .ok base
    | some ls => .ok (base.filter (fun r => labelsContain r.labels ls))

/-- The formal parameters of
EventService.get_events_by_tags_and_labels_query, from its signature at
app/services/event_service.py lines 154-156. -/
def tagsQueryMethodParams : List String := ["tags", "labels"]

/-- The keyword arguments the router passes to that method, from
app/routers/event.py lines 84-86. -/
def routerTagsCallKwargs : List String := ["tags", "labels", "privy"]

/-- Python keyword-argument binding: a call binds exactly when every
keyword names a formal parameter; otherwise the call raises TypeError. -/
def kwargsBind (params kwargs : List String) : Bool :=
  kwargs.all (fun k => params.contains k)

/-- The labels query parameter of GET /events: absent, a string that is
not valid JSON, or a JSON document. -/
inductive LabelsParam where
  | absent : LabelsParam
  | notJson : LabelsParam
  | jsonOf : Json → LabelsParam

/-- HTTP-level failures of the GET /events endpoint. -/
inductive HttpErr where
  | badRequest : HttpErr
  | unprocessable : HttpErr
  | internalError : HttpErr
  deriving Repr, DecidableEq

/-- Embedding of list_events (app/routers/event.py lines 22-87):
validate the mutually exclusive filters, parse the labels JSON, then call
the service.  The user_id branch calls
EventService.get_events_by_user_id_query, a method event_service.py does
not define (AttributeError, HTTP 500); the tags branch calls
get_events_by_tags_and_labels_query with the keyword privy, which is not
among that method's parameters, so the call raises TypeError (HTTP 500)
before any query runs. -/
def listEvents (user_id : Option String) (tags : Option (List String))
    (labels : LabelsParam) (db : DBSession) :
    Except HttpErr (List EventRow) :=
  if user_id.isSome && tags.isSome then .error .badRequest
  else if user_id.isNone && tags.isNone then .error .unprocessable
  else
    match user_id with
    | some _ => .error .internalError
    | none =>
        let ts := tags.getD []
        if ts.isEmpty then .error .unprocessable
        else
          match
            (match labels with
             | .absent => Except.ok (Option.none)
             | .notJson => Except.error HttpErr.badRequest
             | .jsonOf j =>
                 match asStrMap j with
                 | some m => Except.ok (some m)
                 | none => Except.error HttpErr.badRequest) with
          | .error e => .error e
          | .ok labelsPayload =>
              if kwargsBind tagsQueryMethodParams routerTagsCallKwargs then
                match buildTagsLabelsQuery ts labelsPayload db.committed with
                | .ok rows => .ok rows
                | .error _ => .error .internalError
              else .error .internalError

/-- One entry of EVENT_SUBSCRIPTIONS (app/events/handlers.py lines
45-60): subject pattern, optional queue group, acknowledgment mode and
optional stream override.  The handler reference is carried abstractly as
a handler outcome function. -/
structure EventSubscription where
  subject : String
  queue : Option String
  auto_ack : Bool
  stream : Option String

/-- Errors NatsSubscriber.subscribe can raise during setup
(app/ext/nats_subscriber.py lines 60-106). -/
inductive SetupErr where
  | emptySubject : SetupErr
  | noStream : SetupErr
  | brokerApi : SetupErr
  deriving Repr, DecidableEq

/-- Embedding of the setup portion of NatsSubscriber.subscribe
(app/ext/nats_subscriber.py lines 60-112): an empty subject raises
ValueError; a missing stream name (argument and constructor both absent)
raises ValueError; the JetStream subscribe call may raise a broker API
error, which is logged and re-raised. -/
def subscribeSetup (subject : String) (stream : Option String)
    (ctorStream : Option String) (brokerOk : Bool) : Except SetupErr Unit :=
  if subject = "" then .error .emptySubject
  else
    match stream.orElse (fun _ => ctorStream) with
    | none => .error .noStream
    | some _ => if brokerOk then .ok () else .error .brokerApi

/-- Post-startup state of one subscription. -/
inductive SubState where
  | running : SubState
  | failed : SubState
  deriving Repr, DecidableEq

/-- Embedding of the per-subscription startup loop inside lifespan
(app/main.py lines 46-65): each subscription's setup runs inside its own
try/except, so a failure is logged as FAILED and the iteration continues
with the next entry; a clean setup leaves the subscription RUNNING.
brokerOk gives each subscription's broker outcome by position. -/
def lifespanStart (ctorStream : Option String) (brokerOk : Nat → Bool) :
    Nat → List EventSubscription → List SubState
  | _, [] => []
  | i, sub :: rest =>
      (match subscribeSetup sub.subject sub.stream ctorStream (brokerOk i) with
       | .ok _ => SubState.running
       | .error _ => SubState.failed) :: lifespanStart ctorStream brokerOk (i + 1) rest

/-- The top-level names bound in module app.events.handlers
(app/events/handlers.py): its imports and its own definitions.  The module
defines handle_event; it defines no name handle_account_event. -/
def handlersModuleNames : List String :=
  ["logging", "Awaitable", "Callable", "dataclass", "Optional",
   "Event", "EventCreate", "EventService", "SessionLocal", "logger",
   "handle_event", "EventHandler", "EventSubscription",
   "EVENT_SUBSCRIPTIONS"]

/-- The names app/events/init imports from app.events.handlers
(app/events/__init__.py line 3). -/
def eventsInitImportedNames : List String :=
  ["EVENT_SUBSCRIPTIONS", "handle_account_event"]

/-- Python from-import semantics: the import statement succeeds exactly
when every requested name is an attribute of the module; the first
missing name raises ImportError naming it. -/
def fromImport (moduleNames names : List String) : Except String Unit :=
  match names.find? (fun n => !moduleNames.contains n) with
  | some missing => .error missing
  | none => .ok ()

/-- Importing the package app.events runs its init module, which performs
the from-import of eventsInitImportedNames out of app.events.handlers. -/
def importAppEvents : Except String Unit :=
  fromImport handlersModuleNames eventsInitImportedNames

/-- The scenario envelope of spec section 8 (tags contain "signup"). -/
def envGood : Envelope :=
  { source := "linden"
    spec_version := "1.0"
    event_type := "user.created"
    data_content_type := "application/json"
    subject := "linden.account.created"
    time := 0
    tags := some ["signup"]
    labels := some []
    user_id := none }

/-- A well-formed delivery: the scenario envelope on the wire. -/
def pGood : Payload := .json (encodeEnvelope envGood)

/-- A handler that handles every envelope successfully. -/
def hOk : Envelope → HandlerOutcome := fun _ => .ok

/-- A handler whose invocation always raises. -/
def hErr : Envelope → HandlerOutcome := fun _ => .err

/-- Broker round-trips that all succeed. -/
def brAllOk : BrokerOutcomes := { ackOk := true, nakOk := true, termOk := true }

/-- Broker round-trips where the ack call itself raises. -/
def brAckFail : BrokerOutcomes :=
  { ackOk := false, nakOk := true, termOk := true }

/-- C1: for every delivered message whose payload cannot be decoded into a
valid Envelope, one execution of the message-processing step issues
exactly one terminate action, invokes the handler zero times, and returns
without raising, and the consumer loop continues with the subsequent
messages. -/
theorem C1_poison_message_isolation (p : Payload)
    (handler : Envelope → HandlerOutcome) (autoAck : Bool)
    (br : BrokerOutcomes) (rest : List (Option Payload))
    (hmal : decodeEnvelope p = none) :
    (processMessage p handler autoAck br).calls = [.term] ∧
    (processMessage p handler autoAck br).handlerInvocations = [] ∧
    (processMessage p handler autoAck br).raises = false ∧
    messageLoop handler autoAck br (some p :: rest) =
      processMessage p handler autoAck br ::
        messageLoop handler autoAck br rest := by
  simp [processMessage, messageLoop, hmal]

/-- Closed instance of C1 at the concrete undecodable payload. -/
theorem C1_poison_message_isolation_witness :
    decodeEnvelope .invalid = none ∧
    ((processMessage .invalid hOk true brAllOk).calls = [.term] ∧
     (processMessage .invalid hOk true brAllOk).handlerInvocations = [] ∧
     (processMessage .invalid hOk true brAllOk).raises = false ∧
     messageLoop hOk true brAllOk (some .invalid :: [some pGood]) =
       processMessage .invalid hOk true brAllOk ::
         messageLoop hOk true brAllOk [some pGood]) :=
  ⟨rfl, C1_poison_message_isolation .invalid hOk true brAllOk [some pGood] rfl⟩

/-- C2 as stated is false on the code: when the handler succeeds under
automatic-ack mode but the acknowledgment round-trip itself raises, the
except branch of _process_message issues a negative-acknowledgment in
addition to the attempted acknowledgment. -/
theorem C2_counterexample :
    decodeEnvelope pGood = some envGood ∧
    hOk envGood = .ok ∧
    (processMessage pGood hOk true brAckFail).calls = [.ack, .nak] ∧
    (processMessage pGood hOk true brAckFail).calls.count .nak ≠ 0 := by
  refine ⟨by decide, rfl, by decide, by decide⟩

/-- C2 amended: for every delivered message that decodes successfully,
whose handler invocation completes without error and whose acknowledgment
round-trip itself completes without error, automatic-ack mode issues
exactly one acknowledgment and no negative-acknowledgment or terminate
action. -/
theorem C2_ack_exactly_once_amended (p : Payload)
    (handler : Envelope → HandlerOutcome) (br : BrokerOutcomes)
    (env : Envelope) (hdec : decodeEnvelope p = some env)
    (hok : handler env = .ok) (hack : br.ackOk = true) :
    (processMessage p handler true br).calls = [.ack] ∧
    (processMessage p handler true br).calls.count .ack = 1 ∧
    (processMessage p handler true br).calls.count .nak = 0 ∧
    (processMessage p handler true br).calls.count .term = 0 := by
  simp [processMessage, hdec, hok, hack]

/-- Closed instance of the amended C2 at the scenario delivery. -/
theorem C2_ack_exactly_once_amended_witness :
    decodeEnvelope pGood = some envGood ∧ hOk envGood = .ok ∧
    brAllOk.ackOk = true ∧
    ((processMessage pGood hOk true brAllOk).calls = [.ack] ∧
     (processMessage pGood hOk true brAllOk).calls.count .ack = 1 ∧
     (processMessage pGood hOk true brAllOk).calls.count .nak = 0 ∧
     (processMessage pGood hOk true brAllOk).calls.count .term = 0) :=
  ⟨by decide, rfl, rfl,
   C2_ack_exactly_once_amended pGood hOk brAllOk envGood (by decide) rfl rfl⟩

/-- C3: for every delivered message that decodes successfully but whose
handler invocation raises, the message is negatively-acknowledged and
neither acknowledged nor terminated, the error does not propagate out of
the message-processing step, the loop continues, and any later delivery
of the same payload is processed afresh with the handler re-invoked on an
equal Envelope. -/
theorem C3_handler_failure_redelivery (p : Payload)
    (handler : Envelope → HandlerOutcome) (autoAck : Bool)
    (br : BrokerOutcomes) (env : Envelope) (rest : List (Option Payload))
    (hdec : decodeEnvelope p = some env) (herr : handler env = .err) :
    (processMessage p handler autoAck br).calls = [.nak] ∧
    (processMessage p handler autoAck br).handlerInvocations = [env] ∧
    (processMessage p handler autoAck br).raises = false ∧
    messageLoop handler autoAck br (some p :: rest) =
      processMessage p handler autoAck br ::
        messageLoop handler autoAck br rest ∧
    ∀ autoAck2 : Bool, ∀ br2 : BrokerOutcomes,
      (processMessage p handler autoAck2 br2).handlerInvocations = [env] := by
  refine ⟨?_, ?_, ?_, ?_, ?_⟩ <;>
    simp [processMessage, messageLoop, hdec, herr]

/-- Closed instance of C3 at the scenario delivery with a failing
handler. -/
theorem C3_handler_failure_redelivery_witness :
    decodeEnvelope pGood = some envGood ∧ hErr envGood = .err ∧
    ((processMessage pGood hErr true brAllOk).calls = [.nak] ∧
     (processMessage pGood hErr true brAllOk).handlerInvocations = [envGood] ∧
     (processMessage pGood hErr true brAllOk).raises = false ∧
     messageLoop hErr true brAllOk (some pGood :: []) =
       processMessage pGood hErr true brAllOk ::
         messageLoop hErr true brAllOk [] ∧
     ∀ autoAck2 : Bool, ∀ br2 : BrokerOutcomes,
       (processMessage pGood hErr autoAck2 br2).handlerInvocations =
         [envGood]) :=
  ⟨by decide, rfl,
   C3_handler_failure_redelivery pGood hErr true brAllOk envGood []
     (by decide) rfl⟩

/-- C9: when the handler invocation succeeds under automatic-ack mode but
the acknowledgment call itself raises, _process_message issues a
negative-acknowledgment for the message, so a successfully handled
message can be redelivered. -/
theorem C9_ack_failure_naks (p : Payload)
    (handler : Envelope → HandlerOutcome) (br : BrokerOutcomes)
    (env : Envelope) (hdec : decodeEnvelope p = some env)
    (hok : handler env = .ok) (hackfail : br.ackOk = false) :
    (processMessage p handler true br).calls = [.ack, .nak] ∧
    (processMessage p handler true br).calls.count .nak = 1 ∧
    (processMessage p handler true br).raises = false := by
  simp [processMessage, hdec, hok, hackfail]

/-- Closed instance of C9 at the scenario delivery with a failing ack
round-trip. -/
theorem C9_ack_failure_naks_witness :
    decodeEnvelope pGood = some envGood ∧ hOk envGood = .ok ∧
    brAckFail.ackOk = false ∧
    ((processMessage pGood hOk true brAckFail).calls = [.ack, .nak] ∧
     (processMessage pGood hOk true brAckFail).calls.count .nak = 1 ∧
     (processMessage pGood hOk true brAckFail).raises = false) :=
  ⟨by decide, rfl, rfl,
   C9_ack_failure_naks pGood hOk brAckFail envGood (by decide) rfl rfl⟩

/-- C4 as stated is false on the code: _publish_async is annotated
-> None and never returns the broker acknowledgment; at a concrete
successful publish the caller receives the unit value, and the returned
value is identical for two different broker acknowledgments, so it cannot
carry the assigned stream name or sequence number. -/
theorem C4_counterexample :
    (publishAsync "linden.account.created" envGood
        (.ok { stream := "events", seq := 42 })).1 = .ok () ∧
    (publishAsync "linden.account.created" envGood
        (.ok { stream := "events", seq := 42 })).1 =
      (publishAsync "linden.account.created" envGood
          (.ok { stream := "other-stream", seq := 7 })).1 :=
  ⟨rfl, rfl⟩

/-- C4 amended: for every publish of an envelope on a non-empty subject
whose broker round-trip succeeds, the publish operation completes without
error, returns None (no acknowledgment value) to its caller, and logs the
assigned stream name and sequence number. -/
theorem C4_publish_success_amended (subject : String) (env : Envelope)
    (ack : PubAck) (h : subject ≠ "") :
    publishAsync subject env (.ok ack) =
      (.ok (), [.publishedDebug subject ack.stream ack.seq]) := by
  simp [publishAsync, h]

/-- Closed instance of the amended C4 at a concrete successful publish. -/
theorem C4_publish_success_amended_witness :
    "linden.account.created" ≠ "" ∧
    publishAsync "linden.account.created" envGood
        (.ok { stream := "events", seq := 42 }) =
      (.ok (), [.publishedDebug "linden.account.created" "events" 42]) :=
  ⟨by decide,
   C4_publish_success_amended "linden.account.created" envGood
     { stream := "events", seq := 42 } (by decide)⟩

/-- C7: if the store write fails for an envelope, handle_event rolls the
session back (no pending transactional state survives, the committed rows
are unchanged) and the error propagates to its caller. -/
theorem C7_rollback_before_propagate (env : Envelope) (s : DBSession) :
    handleEvent env .commitFail s =
      (.error (), { pending := [], committed := s.committed }) := by
  rfl

/-- A delivered worker message carrying only a payload body: every
CloudEvents field is absent, so the legacy handler's msg.get defaults
apply. -/
def msgNoFields : List (String × Json) := [("event_data", .obj [])]

/-- A fully populated worker message. -/
def msgFull : List (String × Json) :=
  [("source", .str "linden"), ("spec_version", .str "1.0"),
   ("event_type", .str "user.created"), ("event_data", .obj []),
   ("data_content_type", .str "application/json"),
   ("subject", .str "linden.account.created"), ("time", .num 5),
   ("tags", .arr [.str "signup"]), ("labels", .obj [])]

/-- The create-command the legacy handler builds from msgFull. -/
def ecFull : EventCreate :=
  { source := "linden"
    spec_version := "1.0"
    event_type := "user.created"
    event_data := .obj []
    data_content_type := "application/json"
    subject := "linden.account.created"
    time := 5
    tags := some ["signup"]
    labels := some [] }

/-- The rows the legacy worker handler commits are the caller's committed
rows, possibly extended by the one row built from the message. -/
theorem workerHandler_committed (msg : List (String × Json)) (now : Int)
    (out : StoreOutcome) (fetchOk : Bool) (s : DBSession) (ec : EventCreate)
    (hp : s.pending = []) (hec : buildWorkerCreate msg now = some ec) :
    (workerHandler msg now out fetchOk s).2.committed = s.committed ∨
    (workerHandler msg now out fetchOk s).2.committed =
      s.committed ++ [rowOfCreate ec] := by
  cases out <;> cases fetchOk <;>
    simp [workerHandler, hec, createEvent, dbAdd, dbCommit, dbRollback, hp]

/-- The rows handle_event commits are the caller's committed rows,
possibly extended by the one row projected from the envelope. -/
theorem handleEvent_committed (env : Envelope) (out : StoreOutcome)
    (s : DBSession) (hp : s.pending = []) :
    (handleEvent env out s).2.committed = s.committed ∨
    (handleEvent env out s).2.committed =
      s.committed ++
        [rowOfCreate (eventCreateOfEnvelope env (encodeEnvelope env))] := by
  cases out <;>
    simp [handleEvent, createEvent, dbAdd, dbCommit, dbRollback, hp]

/-- C5 as stated is false on the code: the legacy worker path persists a
row whose source, event_type and subject are the empty string when those
keys are absent from the delivered message (msg.get defaults them to "");
the handling succeeds and the row is committed. -/
theorem C5_counterexample :
    (workerHandler msgNoFields 0 .commitOk true dbEmpty).1 = .ok () ∧
    (workerHandler msgNoFields 0 .commitOk true dbEmpty).2.committed.map
        (fun r => (r.source, r.spec_version, r.event_type,
                   r.data_content_type, r.subject)) =
      [("", "1.0", "", "application/json", "")] :=
  ⟨rfl, rfl⟩

/-- C5 amended: the ingestion paths persist the extracted field values
verbatim (the legacy path after its msg.get defaulting), so every newly
persisted row has non-empty source, spec_version, event_type,
data_content_type and subject whenever the extracted values are
non-empty; a message missing source, event_type or subject on the legacy
path persists those fields as empty strings. -/
theorem C5_persisted_fields_amended (msg : List (String × Json)) (now : Int)
    (out : StoreOutcome) (fetchOk : Bool) (s : DBSession) (ec : EventCreate)
    (hp : s.pending = []) (hec : buildWorkerCreate msg now = some ec)
    (h1 : ec.source ≠ "") (h2 : ec.spec_version ≠ "")
    (h3 : ec.event_type ≠ "") (h4 : ec.data_content_type ≠ "")
    (h5 : ec.subject ≠ "")
    (env : Envelope) (out2 : StoreOutcome) (s2 : DBSession)
    (hp2 : s2.pending = [])
    (g1 : env.source ≠ "") (g2 : env.spec_version ≠ "")
    (g3 : env.event_type ≠ "") (g4 : env.data_content_type ≠ "")
    (g5 : env.subject ≠ "") :
    (∀ r ∈ (workerHandler msg now out fetchOk s).2.committed,
        r ∈ s.committed ∨
        (r.source ≠ "" ∧ r.spec_version ≠ "" ∧ r.event_type ≠ "" ∧
         r.data_content_type ≠ "" ∧ r.subject ≠ "")) ∧
    (∀ r ∈ (handleEvent env out2 s2).2.committed,
        r ∈ s2.committed ∨
        (r.source ≠ "" ∧ r.spec_version ≠ "" ∧ r.event_type ≠ "" ∧
         r.data_content_type ≠ "" ∧ r.subject ≠ "")) := by
  constructor
  · intro r hr
    rcases workerHandler_committed msg now out fetchOk s ec hp hec with
      hco | hco
    · exact Or.inl (hco ▸ hr)
    · rw [hco] at hr
      rcases List.mem_append.mp hr with hin | hone
      · exact Or.inl hin
      · rcases List.mem_singleton.mp hone with rfl
        exact Or.inr ⟨h1, h2, h3, h4, h5⟩
  · intro r hr
    rcases handleEvent_committed env out2 s2 hp2 with hco | hco
    · exact Or.inl (hco ▸ hr)
    · rw [hco] at hr
      rcases List.mem_append.mp hr with hin | hone
      · exact Or.inl hin
      · rcases List.mem_singleton.mp hone with rfl
        exact Or.inr ⟨g1, g2, g3, g4, g5⟩

/-- Closed instance of the amended C5: the fully populated message and
the scenario envelope persist only rows with non-empty fields. -/
theorem C5_persisted_fields_amended_witness :
    dbEmpty.pending = [] ∧
    buildWorkerCreate msgFull 0 = some ecFull ∧
    (ecFull.source ≠ "" ∧ ecFull.spec_version ≠ "" ∧
     ecFull.event_type ≠ "" ∧ ecFull.data_content_type ≠ "" ∧
     ecFull.subject ≠ "") ∧
    (envGood.source ≠ "" ∧ envGood.spec_version ≠ "" ∧
     envGood.event_type ≠ "" ∧ envGood.data_content_type ≠ "" ∧
     envGood.subject ≠ "") ∧
    ((∀ r ∈ (workerHandler msgFull 0 .commitOk true dbEmpty).2.committed,
        r ∈ dbEmpty.committed ∨
        (r.source ≠ "" ∧ r.spec_version ≠ "" ∧ r.event_type ≠ "" ∧
         r.data_content_type ≠ "" ∧ r.subject ≠ "")) ∧
     (∀ r ∈ (handleEvent envGood .commitOk dbEmpty).2.committed,
        r ∈ dbEmpty.committed ∨
        (r.source ≠ "" ∧ r.spec_version ≠ "" ∧ r.event_type ≠ "" ∧
         r.data_content_type ≠ "" ∧ r.subject ≠ ""))) :=
  ⟨rfl, rfl,
   ⟨by decide, by decide, by decide, by decide, by decide⟩,
   ⟨by decide, by decide, by decide, by decide, by decide⟩,
   C5_persisted_fields_amended msgFull 0 .commitOk true dbEmpty ecFull rfl
     rfl (by decide) (by decide) (by decide) (by decide) (by decide)
     envGood .commitOk dbEmpty rfl
     (by decide) (by decide) (by decide) (by decide) (by decide)⟩

/-- C6: an envelope tagged "signup" is persisted by handle_event, and the
tag-filtered query itself would return the row, yet GET /events?tags=signup
fails with an internal error, because list_events passes the keyword
argument privy to get_events_by_tags_and_labels_query, which has no such
parameter, so the call raises TypeError before any query runs. -/
theorem C6_tags_request_raises_type_error :
    ((handleEvent envGood .commitOk dbEmpty).2.committed.map
        (fun r => r.tags)) = [some ["signup"]] ∧
    buildTagsLabelsQuery ["signup"] none
        (handleEvent envGood .commitOk dbEmpty).2.committed =
      .ok (handleEvent envGood .commitOk dbEmpty).2.committed ∧
    kwargsBind tagsQueryMethodParams routerTagsCallKwargs = false ∧
    listEvents none (some ["signup"]) .absent
        (handleEvent envGood .commitOk dbEmpty).2 =
      .error .internalError :=
  ⟨rfl, rfl, rfl, rfl⟩

/-- Position j of the startup loop's outcome list is RUNNING or FAILED
according to subscription j's own setup outcome alone. -/
theorem lifespanStart_getD (ctorStream : Option String)
    (brokerOk : Nat → Bool) :
    ∀ (subs : List EventSubscription) (i j : Nat), j < subs.length →
      (lifespanStart ctorStream brokerOk i subs).getD j .failed =
        (match
            subscribeSetup
              ((subs.getD j
                  { subject := "", queue := none, auto_ack := true,
                    stream := none }).subject)
              ((subs.getD j
                  { subject := "", queue := none, auto_ack := true,
                    stream := none }).stream)
              ctorStream (brokerOk (i + j)) with
         | .ok _ => SubState.running
         | .error _ => SubState.failed) := by
  intro subs
  induction subs with
  | nil => intro i j h; simp at h
  | cons sub rest ih =>
      intro i j h
      cases j with
      | zero => simp [lifespanStart]
      | succ j' =>
          have h' : j' < rest.length := Nat.lt_of_succ_lt_succ h
          have := ih (i + 1) j' h'
          simp only [lifespanStart, List.getD_cons_succ, List.length_cons]
          rw [this]
          have harith : i + 1 + j' = i + (j' + 1) := by omega
          rw [harith]

/-- The startup loop attempts every subscription: one outcome per
registry entry. -/
theorem lifespanStart_length (ctorStream : Option String)
    (brokerOk : Nat → Bool) :
    ∀ (subs : List EventSubscription) (i : Nat),
      (lifespanStart ctorStream brokerOk i subs).length = subs.length := by
  intro subs
  induction subs with
  | nil => intro i; rfl
  | cons sub rest ih =>
      intro i
      simp [lifespanStart, ih (i + 1)]

/-- C8: the lifespan startup iteration attempts every subscription in the
registry (one outcome per entry), and any subscription whose own setup
succeeds reaches the RUNNING state regardless of the other subscriptions'
failures. -/
theorem C8_partial_startup_isolation (ctorStream : Option String)
    (brokerOk : Nat → Bool) (subs : List EventSubscription) (i : Nat)
    (h : i < subs.length)
    (hok :
      subscribeSetup
          ((subs.getD i
              { subject := "", queue := none, auto_ack := true,
                stream := none }).subject)
          ((subs.getD i
              { subject := "", queue := none, auto_ack := true,
                stream := none }).stream)
          ctorStream (brokerOk i) = .ok ()) :
    (lifespanStart ctorStream brokerOk 0 subs).length = subs.length ∧
    (lifespanStart ctorStream brokerOk 0 subs).getD i .failed =
      .running := by
  refine ⟨lifespanStart_length ctorStream brokerOk subs 0, ?_⟩
  have := lifespanStart_getD ctorStream brokerOk subs 0 i h
  rw [Nat.zero_add] at this
  rw [this, hok]

/-- The registry entry of app/events/handlers.py lines 54-60. -/
def subA : EventSubscription :=
  { subject := "linden.*.*", queue := some "linden-account-workers",
    auto_ack := true, stream := none }

/-- A second registry entry with a stream override. -/
def subB : EventSubscription :=
  { subject := "linden.account.>", queue := none, auto_ack := true,
    stream := some "events" }

/-- Broker outcomes where the first subscription's setup fails and the
second's succeeds. -/
def brokerOkExceptFirst : Nat → Bool := fun n => decide (n ≠ 0)

/-- Closed instance of C8: with registry entries A and B where A's broker
setup fails, B still reaches the RUNNING state and both setups were
attempted. -/
theorem C8_partial_startup_isolation_witness :
    (1 < ([subA, subB] : List EventSubscription).length) ∧
    subscribeSetup
        ((([subA, subB] : List EventSubscription).getD 1
            { subject := "", queue := none, auto_ack := true,
              stream := none }).subject)
        ((([subA, subB] : List EventSubscription).getD 1
            { subject := "", queue := none, auto_ack := true,
              stream := none }).stream)
        (some "events") (brokerOkExceptFirst 1) = .ok () ∧
    ((lifespanStart (some "events") brokerOkExceptFirst 0
        [subA, subB]).length = 2 ∧
     (lifespanStart (some "events") brokerOkExceptFirst 0
        [subA, subB]).getD 1 .failed = .running) :=
  ⟨by decide, rfl,
   C8_partial_startup_isolation (some "events") brokerOkExceptFirst
     [subA, subB] 1 (by decide) rfl⟩

/-- C10: importing the events package's public interface fails: the init
module re-exports handle_account_event from app.events.handlers, but that
module binds no such name (its handler is handle_event), so the
from-import raises ImportError naming handle_account_event. -/
theorem C10_events_package_import_fails :
    importAppEvents = .error "handle_account_event" := by
  rfl
